import Mathlib

/-!
Verification of the `my-mcp-server` repository: a shallow embedding of the
MCP server dispatcher (`src/index.ts`), the calculator and weather tools
(`src/tools/calculator.ts`, `src/tools/weather.ts`), and the Gemini client
with its schema translator and agentic tool-calling loop
(`src/client/index.ts`), together with theorems settling the spec claims.

Modelling conventions:
* JavaScript dynamic values (tool arguments) are a JSON value type `Json`;
  numbers are modelled as rationals (all values the claims exercise are
  small integers, where IEEE doubles and rationals agree).
* Zod validation (`safeParse`) is modelled per schema as a total function
  returning either the parsed typed input or the list of issues, each issue
  carrying the path (violated field) and a message.  Exact Zod message
  punctuation is abbreviated; no claim depends on it.
* Thrown `McpError`s are `Except.error` values; the MCP SDK turns a handler
  throw into an error response, which the client observes as a rejected
  promise, so client-side the same `Except` propagation models the throw.
* The weather handler is impure (`Math.random` fallback data and
  `new Date().toISOString()`); the embedding passes both explicitly
  (`fallback`, `timestamp`).
-/

set_option autoImplicit false

namespace MCP

/-- JSON-like dynamic values: the argument bags passed to tools. -/
inductive Json where
  | str (s : String)
  | num (q : ℚ)
  | bool (b : Bool)
  | null
  | arr (xs : List Json)
  | obj (fields : List (String × Json))

/-- The name Zod reports for the runtime type of a value (`received ...`). -/
def Json.typeName : Json → String
  | .str _ => "string"
  | .num _ => "number"
  | .bool _ => "boolean"
  | .null => "null"
  | .arr _ => "array"
  | .obj _ => "object"

/-- First-match association lookup; JavaScript object property access
(object literals cannot carry duplicate keys). -/
def lookupAssoc {α : Type} : List (String × α) → String → Option α
  | [], _ => none
  | (k2, v) :: rest, k => if k2 = k then some v else lookupAssoc rest k

/-- Property access on a JSON object literal, `args[key]`. -/
def lookupField (fields : List (String × Json)) (k : String) : Option Json :=
  lookupAssoc fields k

/-- One Zod validation issue: the path names the violated field. -/
structure ZodIssue where
  path : List String
  message : String
  deriving DecidableEq, Repr

/-- `Array.prototype.join(sep)`. -/
def joinSep (sep : String) : List String → String
  | [] => ""
  | [x] => x
  | x :: y :: rest => x ++ sep ++ joinSep sep (y :: rest)

/-- Rendering of one Zod issue inside `error.message`; the path (field name)
is printed verbatim. -/
def renderIssue (i : ZodIssue) : String :=
  "path [" ++ joinSep ", " i.path ++ "]: " ++ i.message

/-- Rendering of `parsed.error.message`: all collected issues. -/
def renderIssues (issues : List ZodIssue) : String :=
  joinSep "; " (issues.map renderIssue)

/-- The MCP SDK error codes this repository uses
(`@modelcontextprotocol/sdk/types.js`). -/
inductive ErrorCode where
  | InvalidParams
  | MethodNotFound
  | InvalidRequest
  deriving DecidableEq, Repr

/-- A thrown `McpError (code, message)`. -/
structure McpError where
  code : ErrorCode
  message : String
  deriving DecidableEq, Repr

/-- One entry of a tool result `content` array. -/
structure ContentItem where
  type : String
  text : String
  deriving DecidableEq, Repr

/-- A successful tool result: `{ content: [...] }`. -/
structure ToolResponse where
  content : List ContentItem
  deriving DecidableEq, Repr

/-- Does the first character list lead (start) the second? -/
def charsLead : List Char → List Char → Bool
  | [], _ => true
  | _ :: _, [] => false
  | a :: as, b :: bs => a == b && charsLead as bs

/-- Does `pre` start the string `s`? -/
def strBegins (pre s : String) : Bool :=
  charsLead pre.data s.data

/-- The error taxonomy of the specification (section 7).  In the code,
validation failures and domain errors share the wire code `InvalidParams`;
they are distinguished by provenance, which is visible in the message:
validation failures are exactly the errors whose message the handlers build
from the failed parse, marked `Invalid input: `; domain errors and not-found
errors never carry that marker. -/
inductive SpecErrorKind where
  | NotFound
  | InvalidInput
  | DomainError
  deriving DecidableEq, Repr

/-- Classify a thrown `McpError` into the specification's taxonomy. -/
def classifyError (e : McpError) : SpecErrorKind :=
  if e.code = .MethodNotFound then .NotFound
  else if strBegins "Invalid input: " e.message then .InvalidInput
  else .DomainError

/-- JavaScript number-to-string coercion as used in template literals.
Integral values print as decimal integers (the only case any theorem relies
on); non-integral values are rendered from the exact rational, standing in
for shortest-round-trip double printing. -/
def jsNumToString (q : ℚ) : String :=
  if q.den = 1 then toString q.num else toString q.num ++ "/" ++ toString q.den

/-! ## Calculator tool — `src/tools/calculator.ts` -/

/-- The `operation` enum of `CalculatorInputSchema`. -/
inductive CalcOp where
  | add
  | subtract
  | multiply
  | divide
  deriving DecidableEq, Repr

/-- The enum literal backing a `CalcOp` (the string interpolated into the
result text `a operation b = result`). -/
def CalcOp.render : CalcOp → String
  | .add => "add"
  | .subtract => "subtract"
  | .multiply => "multiply"
  | .divide => "divide"

/-- `z.infer of CalculatorInputSchema`: the typed record a successful parse
produces. -/
structure CalculatorInput where
  operation : CalcOp
  a : ℚ
  b : ℚ

/-- Decode an `operation` string against the enum
`["add", "subtract", "multiply", "divide"]`. -/
def decodeCalcOp (s : String) : Option CalcOp :=
  if s = "add" then some .add
  else if s = "subtract" then some .subtract
  else if s = "multiply" then some .multiply
  else if s = "divide" then some .divide
  else none

/-- Zod check of the `operation` field: required, a string, in the enum. -/
def parseCalcOperation (fields : List (String × Json)) : Except ZodIssue CalcOp :=
  match lookupField fields "operation" with
  | none => .error ⟨["operation"], "Required"⟩
  | some (.str s) =>
    match decodeCalcOp s with
    | some op => .ok op
    | none =>
      .error ⟨["operation"],
        "Invalid enum value. Expected add | subtract | multiply | divide, received " ++ s⟩
  | some v =>
    .error ⟨["operation"],
      "Expected add | subtract | multiply | divide, received " ++ v.typeName⟩

/-- Zod check of a `z.number()` field: required and a number. -/
def parseNumField (name : String) (fields : List (String × Json)) : Except ZodIssue ℚ :=
  match lookupField fields name with
  | none => .error ⟨[name], "Required"⟩
  | some (.num q) => .ok q
  | some v => .error ⟨[name], "Expected number, received " ++ v.typeName⟩

/-- The issues contributed by one field check. -/
def exceptIssues {α : Type} : Except ZodIssue α → List ZodIssue
  | .error i => [i]
  | .ok _ => []

/-- `CalculatorInputSchema.safeParse`: a `z.object` checks every field and
collects all issues, in shape order (`operation`, `a`, `b`); unknown keys are
stripped, a non-object input is a single root issue. -/
def calculatorSafeParse (v : Json) : Except (List ZodIssue) CalculatorInput :=
  match v with
  | .obj fields =>
    match parseCalcOperation fields, parseNumField "a" fields, parseNumField "b" fields with
    | .ok op, .ok a, .ok b => .ok ⟨op, a, b⟩
    | rop, ra, rb => .error (exceptIssues rop ++ exceptIssues ra ++ exceptIssues rb)
  | v => .error [⟨[], "Expected object, received " ++ v.typeName⟩]

/-- The calculator result line, `a operation b = result` (template literal
at src/tools/calculator.ts:86). -/
def calcText (a : ℚ) (op : CalcOp) (b : ℚ) (result : ℚ) : String :=
  jsNumToString a ++ " " ++ op.render ++ " " ++ jsNumToString b ++ " = " ++
    jsNumToString result

/-- `handleCalculator` (src/tools/calculator.ts:49): validate with
`safeParse` (failure throws `McpError(InvalidParams, "Invalid input: ...")`),
then switch on the operation; `divide` with `b === 0` throws
`McpError(InvalidParams, "Cannot divide by zero")`; otherwise return the
text content. -/
def handleCalculator (args : Json) : Except McpError ToolResponse :=
  match calculatorSafeParse args with
  | .error issues => .error ⟨.InvalidParams, "Invalid input: " ++ renderIssues issues⟩
  | .ok input =>
    match input.operation with
    | .add => .ok ⟨[⟨"text", calcText input.a .add input.b (input.a + input.b)⟩]⟩
    | .subtract => .ok ⟨[⟨"text", calcText input.a .subtract input.b (input.a - input.b)⟩]⟩
    | .multiply => .ok ⟨[⟨"text", calcText input.a .multiply input.b (input.a * input.b)⟩]⟩
    | .divide =>
      if input.b = 0 then .error ⟨.InvalidParams, "Cannot divide by zero"⟩
      else .ok ⟨[⟨"text", calcText input.a .divide input.b (input.a / input.b)⟩]⟩

/-! ## Weather tool — `src/tools/weather.ts` -/

/-- The `unit` enum of `WeatherInputSchema`. -/
inductive TempUnit where
  | celsius
  | fahrenheit
  deriving DecidableEq, Repr

/-- `z.infer of WeatherInputSchema` after defaulting. -/
structure WeatherInput where
  city : String
  unit : TempUnit

/-- One row of the `MOCK_WEATHER` table. -/
structure WeatherData where
  tempC : ℚ
  humidity : ℚ
  condition : String
  deriving DecidableEq, Repr

/-- The static `MOCK_WEATHER` table (src/tools/weather.ts:51). -/
def MOCK_WEATHER : List (String × WeatherData) :=
  [ ("london", ⟨12, 80, "Cloudy"⟩)
  , ("new york", ⟨18, 60, "Sunny"⟩)
  , ("tokyo", ⟨22, 55, "Partly Cloudy"⟩)
  , ("paris", ⟨14, 70, "Rainy"⟩)
  , ("sydney", ⟨25, 50, "Sunny"⟩) ]

/-- `MOCK_WEATHER[key]` property access. -/
def mockWeatherLookup (key : String) : Option WeatherData :=
  lookupAssoc MOCK_WEATHER key

/-- Zod check of the `city` field: required, `z.string().min(1)`. -/
def parseWeatherCity (fields : List (String × Json)) : Except ZodIssue String :=
  match lookupField fields "city" with
  | none => .error ⟨["city"], "Required"⟩
  | some (.str s) =>
    if 1 ≤ s.length then .ok s
    else .error ⟨["city"], "String must contain at least 1 character(s)"⟩
  | some v => .error ⟨["city"], "Expected string, received " ++ v.typeName⟩

/-- Decode a `unit` string against the enum `["celsius", "fahrenheit"]`. -/
def decodeTempUnit (s : String) : Option TempUnit :=
  if s = "celsius" then some .celsius
  else if s = "fahrenheit" then some .fahrenheit
  else none

/-- Zod check of the `unit` field:
`z.enum(["celsius", "fahrenheit"]).default("celsius")` — an absent field
takes the default, a present one must be in the enum. -/
def parseWeatherUnit (fields : List (String × Json)) : Except ZodIssue TempUnit :=
  match lookupField fields "unit" with
  | none => .ok .celsius
  | some (.str s) =>
    match decodeTempUnit s with
    | some u => .ok u
    | none =>
      .error ⟨["unit"], "Invalid enum value. Expected celsius | fahrenheit, received " ++ s⟩
  | some v =>
    .error ⟨["unit"], "Expected celsius | fahrenheit, received " ++ v.typeName⟩

/-- `WeatherInputSchema.safeParse`: field checks in shape order
(`city`, `unit`), all issues collected. -/
def weatherSafeParse (v : Json) : Except (List ZodIssue) WeatherInput :=
  match v with
  | .obj fields =>
    match parseWeatherCity fields, parseWeatherUnit fields with
    | .ok city, .ok u => .ok ⟨city, u⟩
    | rc, ru => .error (exceptIssues rc ++ exceptIssues ru)
  | v => .error [⟨[], "Expected object, received " ++ v.typeName⟩]

/-- `city.toLowerCase()` (ASCII city names; identical to JS on them). -/
def jsToLower (s : String) : String :=
  String.mk (s.data.map Char.toLower)

/-- `city.charAt(0).toUpperCase() + city.slice(1)`. -/
def jsCapitalize (s : String) : String :=
  match s.data with
  | [] => ""
  | c :: rest => String.mk (c.toUpper :: rest)

/-- `Math.round`: round half toward positive infinity. -/
def jsRound (q : ℚ) : ℤ :=
  ⌊q + 1 / 2⌋

/-- The `weatherReport` object (src/tools/weather.ts:92). -/
structure WeatherReport where
  city : String
  temperature : String
  humidity : String
  condition : String
  timestamp : String
  deriving DecidableEq, Repr

/-- `JSON.stringify(weatherReport, null, 2)` for this flat string-valued
object. -/
def renderWeatherReport (r : WeatherReport) : String :=
  "\x7b\n  \"city\": \"" ++ r.city ++
    "\",\n  \"temperature\": \"" ++ r.temperature ++
    "\",\n  \"humidity\": \"" ++ r.humidity ++
    "\",\n  \"condition\": \"" ++ r.condition ++
    "\",\n  \"timestamp\": \"" ++ r.timestamp ++ "\"\n\x7d"

/-- `handleGetWeather` (src/tools/weather.ts:63): validate, look the
lower-cased city up in `MOCK_WEATHER` with a generated fallback for unknown
cities, convert the temperature (`1.8` is the exact rational `9 / 5`;
`Math.round` applied in the fahrenheit branch), and return the rendered
report.  The impure inputs — the randomly generated fallback row and
`new Date().toISOString()` — are passed explicitly. -/
def handleGetWeather (args : Json) (fallback : WeatherData) (timestamp : String) :
    Except McpError ToolResponse :=
  match weatherSafeParse args with
  | .error issues => .error ⟨.InvalidParams, "Invalid input: " ++ renderIssues issues⟩
  | .ok input =>
    let data := (mockWeatherLookup (jsToLower input.city)).getD fallback
    let temp : ℚ :=
      match input.unit with
      | .fahrenheit => (jsRound (data.tempC * (9 / 5) + 32) : ℚ)
      | .celsius => data.tempC
    let unitSymbol :=
      match input.unit with
      | .fahrenheit => "°F"
      | .celsius => "°C"
    .ok ⟨[⟨"text", renderWeatherReport
      ⟨jsCapitalize input.city, jsNumToString temp ++ unitSymbol,
       jsNumToString data.humidity ++ "%", data.condition, timestamp⟩⟩]⟩

/-! ## Server dispatcher — `src/index.ts` -/

/-- The impure inputs the weather handler consumes in one call, passed
through the dispatcher. -/
structure WeatherEnv where
  fallback : WeatherData
  timestamp : String

/-- The `tools/call` request handler (src/index.ts:84): switch on the tool
name, dispatch to the handler, unknown names throw
`McpError(MethodNotFound, "Unknown tool: " + name)`.  The stderr diagnostic
write has no effect on the response and is not modelled. -/
def callTool (env : WeatherEnv) (name : String) (args : Json) :
    Except McpError ToolResponse :=
  if name = "calculator" then handleCalculator args
  else if name = "get_weather" then handleGetWeather args env.fallback env.timestamp
  else .error ⟨.MethodNotFound, "Unknown tool: " ++ name⟩

/-! ## Declared tool schemas — the `inputSchema` objects the server
advertises via `tools/list` -/

/-- One property of a declared JSON-schema object:
`{ type, description?, enum? }`. -/
structure PropertySchema where
  type : String
  description : Option String := none
  enum : Option (List String) := none
  deriving DecidableEq, Repr

/-- A declared object schema as the client reads it
(src/client/index.ts:60): `properties` and `required` may be absent. -/
structure ObjectSchema where
  properties : Option (List (String × PropertySchema)) := none
  required : Option (List String) := none
  deriving DecidableEq, Repr

/-- An MCP tool as listed by the server and consumed by the client. -/
structure McpTool where
  name : String
  description : Option String := none
  inputSchema : ObjectSchema
  deriving DecidableEq, Repr

/-- `calculatorToolDefinition` (src/tools/calculator.ts:29). -/
def calculatorToolDefinition : McpTool :=
  { name := "calculator"
  , description := some
      "Perform basic arithmetic operations: add, subtract, multiply, or divide two numbers."
  , inputSchema :=
    { properties := some
        [ ("operation",
            { type := "string"
            , enum := some ["add", "subtract", "multiply", "divide"]
            , description := some "The arithmetic operation to perform" })
        , ("a", { type := "number", description := some "The first number" })
        , ("b", { type := "number", description := some "The second number" }) ]
    , required := some ["operation", "a", "b"] } }

/-- `weatherToolDefinition` (src/tools/weather.ts:28).  Note: the declared
schema constrains `city` only to be a string — the handler additionally
enforces `min(1)`. -/
def weatherToolDefinition : McpTool :=
  { name := "get_weather"
  , description := some
      "Get the current weather for a city. Returns temperature, humidity, and conditions."
  , inputSchema :=
    { properties := some
        [ ("city",
            { type := "string"
            , description := some "Name of the city to get weather for" })
        , ("unit",
            { type := "string"
            , enum := some ["celsius", "fahrenheit"]
            , description := some "Temperature unit (default: celsius)" }) ]
    , required := some ["city"] } }

/-- The `tools/list` response (src/index.ts:74). -/
def serverTools : List McpTool :=
  [calculatorToolDefinition, weatherToolDefinition]

/-- Does a value have the declared primitive type?  (`integer` additionally
requires an integral number.) -/
def Json.hasPrimitiveType (v : Json) (t : String) : Bool :=
  match t with
  | "integer" =>
    match v with
    | .num q => q.den == 1
    | _ => false
  | t => v.typeName == t

/-- A value satisfies a declared property schema: the declared type, and
membership of the declared enum when one is present. -/
def satisfiesPropSchema (p : PropertySchema) (v : Json) : Bool :=
  v.hasPrimitiveType p.type &&
    (match p.enum with
     | none => true
     | some es =>
       match v with
       | .str s => es.contains s
       | _ => false)

/-- An argument object satisfies a declared object schema: every required
field is present, and every present declared field satisfies its property
schema (extra fields are unconstrained, as in JSON Schema without
`additionalProperties`). -/
def satisfiesObjectSchema (s : ObjectSchema) (fields : List (String × Json)) : Bool :=
  (s.required.getD []).all (fun r => (lookupField fields r).isSome) &&
    (s.properties.getD []).all (fun kp =>
      match lookupField fields kp.1 with
      | none => true
      | some v => satisfiesPropSchema kp.2 v)

/-- The argument object violates the declared schema at field `f`: `f` is
required but absent, or present with the wrong type or outside its enum. -/
def violatesField (s : ObjectSchema) (fields : List (String × Json)) (f : String) : Prop :=
  (f ∈ s.required.getD [] ∧ lookupField fields f = none) ∨
  (∃ p, (f, p) ∈ s.properties.getD [] ∧
    ∃ v, lookupField fields f = some v ∧ satisfiesPropSchema p v = false)

/-! ## Schema translator — `src/client/index.ts` -/

/-- The Gemini `SchemaType` tags (`@google/generative-ai`). -/
inductive SchemaType where
  | STRING
  | NUMBER
  | INTEGER
  | BOOLEAN
  | ARRAY
  | OBJECT
  deriving DecidableEq, Repr

/-- `toGeminiSchemaType` (src/client/index.ts:46): the fixed map over the
six primitive kinds, any other input falling back to `STRING`
(`map[type] ?? SchemaType.STRING`). -/
def toGeminiSchemaType (t : String) : SchemaType :=
  match t with
  | "string" => .STRING
  | "number" => .NUMBER
  | "integer" => .INTEGER
  | "boolean" => .BOOLEAN
  | "array" => .ARRAY
  | "object" => .OBJECT
  | _ => .STRING

/-- One property of a Gemini function declaration: the code writes
`description ?? ""` and spreads `enum` only when present. -/
structure GeminiProperty where
  type : SchemaType
  description : String
  enum : Option (List String)
  deriving DecidableEq, Repr

/-- The `parameters` object built by the translator. -/
structure GeminiParameters where
  type : SchemaType
  properties : List (String × GeminiProperty)
  required : List String
  deriving DecidableEq, Repr

/-- A Gemini `FunctionDeclaration`. -/
structure FunctionDeclaration where
  name : String
  description : String
  parameters : GeminiParameters
  deriving DecidableEq, Repr

/-- `mcpToolToGeminiFn` (src/client/index.ts:59): name and description
(`?? ""`) copied, `required ?? []`, and each schema property translated in
place (type via `toGeminiSchemaType`, `description ?? ""`, `enum` spread
only when present; absent `properties` yields the empty property map). -/
def mcpToolToGeminiFn (tool : McpTool) : FunctionDeclaration :=
  { name := tool.name
  , description := tool.description.getD ""
  , parameters :=
    { type := .OBJECT
    , required := tool.inputSchema.required.getD []
    , properties :=
      match tool.inputSchema.properties with
      | none => []
      | some props => props.map (fun kp =>
          (kp.1,
            { type := toGeminiSchemaType kp.2.type
            , description := kp.2.description.getD ""
            , enum := kp.2.enum })) } }

/-! ## Agentic loop controller — `src/client/index.ts` main -/

/-- A tool invocation requested by the model (`candidate.functionCalls()`). -/
structure FunctionCall where
  name : String
  args : Json

/-- One entry pushed onto `toolResults`:
`{ functionResponse: { name, response: { result } } }`. -/
structure FunctionResponseMsg where
  name : String
  response : String
  deriving DecidableEq, Repr

/-- One model response: the requested tool calls (possibly none) and the
text payload. -/
structure ModelResponse where
  functionCalls : List FunctionCall
  text : String

/-- The result text the client extracts from a successful tool call
(src/client/index.ts:176): text items of `content`, joined by newlines. -/
def resultText (r : ToolResponse) : String :=
  joinSep "\n" ((r.content.filter (fun c => c.type == "text")).map (fun c => c.text))

/-- The `for (const call of functionCalls)` loop (src/client/index.ts:167):
invocations run strictly sequentially, each successful result is pushed in
request order; a rejected `callTool` promise (the server handler threw)
escapes the loop — later calls do not run and no batch is produced. -/
def processFunctionCalls (env : WeatherEnv) :
    List FunctionCall → Except McpError (List FunctionResponseMsg)
  | [] => .ok []
  | call :: rest =>
    match callTool env call.name call.args with
    | .error e => .error e
    | .ok r =>
      match processFunctionCalls env rest with
      | .error e => .error e
      | .ok msgs => .ok (⟨call.name, resultText r⟩ :: msgs)

/-- How one user turn ends: the final text printed to the user, or the
outer `catch` (src/client/index.ts:196) printing the error message to the
user; `exhausted` marks the model oracle running out of scripted
responses (a modelling artifact of the blocking `sendMessage`). -/
inductive TurnOutcome where
  | finalText (s : String)
  | aborted (message : String)
  | exhausted
  deriving DecidableEq, Repr

/-- What one user turn sent and how it ended: each element of
`sentBatches` is the payload of one `chat.sendMessage(toolResults)` call. -/
structure TurnTrace where
  sentBatches : List (List FunctionResponseMsg)
  outcome : TurnOutcome
  deriving DecidableEq, Repr

/-- The agentic `while (true)` loop for one user turn
(src/client/index.ts:154), the model played by an oracle: each successive
`sendMessage` consumes the next scripted `ModelResponse`.  A response with
no function calls prints its text and ends the turn; otherwise the calls
are processed sequentially and the collected results are sent back as one
batched message, or the first error aborts the turn through the outer
`catch`. -/
def runTurn (env : WeatherEnv) : List ModelResponse → TurnTrace
  | [] => ⟨[], .exhausted⟩
  | r :: rest =>
    if r.functionCalls.isEmpty then ⟨[], .finalText r.text⟩
    else
      match processFunctionCalls env r.functionCalls with
      | .error e => ⟨[], .aborted e.message⟩
      | .ok batch =>
        let t := runTurn env rest
        ⟨batch :: t.sentBatches, t.outcome⟩

/-! ## Shared helper lemmas -/

/-- A concrete weather environment for closed scenario theorems (the
calculator path never reads it). -/
def sampleEnv : WeatherEnv :=
  ⟨⟨20, 45, "Sunny"⟩, "2026-01-01T00:00:00.000Z"⟩

theorem charsLead_append (l t : List Char) : charsLead l (l ++ t) = true := by
  induction l with
  | nil => rfl
  | cons c rest ih => simp [charsLead, ih]

theorem strBegins_append (p t : String) : strBegins p (p ++ t) = true := by
  unfold strBegins
  rw [String.data_append]
  exact charsLead_append p.data t.data

/-- A validation error is classified `InvalidInput`. -/
theorem classify_invalid_input (m : String) :
    classifyError ⟨.InvalidParams, "Invalid input: " ++ m⟩ = .InvalidInput := by
  simp [classifyError, strBegins_append "Invalid input: " m]

/-- Members of a joined list are cited (appear contiguously) in the join. -/
theorem mem_infix_joinSep (sep : String) :
    ∀ (l : List String) (x : String), x ∈ l → x.data <:+: (joinSep sep l).data := by
  intro l
  induction l with
  | nil => intro x hx; cases hx
  | cons a rest ih =>
    intro x hx
    cases rest with
    | nil =>
      cases hx with
      | head => exact List.infix_rfl
      | tail _ h2 => cases h2
    | cons b more =>
      cases hx with
      | head =>
        have heq : (joinSep sep (a :: b :: more)) = a ++ sep ++ joinSep sep (b :: more) := rfl
        rw [heq, String.data_append, String.data_append]
        exact ((List.prefix_append a.data _).trans (List.prefix_append _ _)).isInfix
      | tail _ h2 =>
        have h1 : x.data <:+: (joinSep sep (b :: more)).data := ih x h2
        have heq : (joinSep sep (a :: b :: more)) = a ++ sep ++ joinSep sep (b :: more) := rfl
        rw [heq, String.data_append]
        exact h1.trans (List.suffix_append _ _).isInfix

/-- An issue whose path is the single field `f` cites `f` in the rendered
message. -/
theorem field_infix_renderIssues (issues : List ZodIssue) (i : ZodIssue) (f : String)
    (hmem : i ∈ issues) (hpath : i.path = [f]) :
    f.data <:+: (renderIssues issues).data := by
  have h1 : f.data <:+: (renderIssue i).data := by
    unfold renderIssue
    rw [hpath]
    refine ⟨"path [".data, ("]: " ++ i.message).data, ?_⟩
    simp [String.data_append, joinSep]
  have h2 : (renderIssue i).data <:+: (renderIssues issues).data :=
    mem_infix_joinSep "; " (issues.map renderIssue) (renderIssue i)
      (List.mem_map_of_mem renderIssue hmem)
  exact h1.trans h2

/-- Successful sequential processing pairs results to requests by name and
position. -/
theorem processFunctionCalls_ok_names (env : WeatherEnv) :
    ∀ (calls : List FunctionCall) (batch : List FunctionResponseMsg),
      processFunctionCalls env calls = .ok batch →
      batch.map FunctionResponseMsg.name = calls.map FunctionCall.name := by
  intro calls
  induction calls with
  | nil =>
    intro batch h
    simp only [processFunctionCalls] at h
    cases h
    rfl
  | cons c rest ih =>
    intro batch h
    simp only [processFunctionCalls] at h
    cases hc : callTool env c.name c.args with
    | error e => rw [hc] at h; cases h
    | ok r =>
      rw [hc] at h
      cases hr : processFunctionCalls env rest with
      | error e => rw [hr] at h; cases h
      | ok msgs =>
        rw [hr] at h
        cases h
        simp [ih msgs hr]

/-! ## Claim theorems -/

/-- C3: invoking the calculator with `{operation: "divide", a: 1, b: 0}`
passes schema validation (first conjunct — so the failure is handler-level,
not an input-validation failure), and the dispatcher returns the structured
`Cannot divide by zero` error — a returned value of the total dispatch
function, not a crash — which the specification taxonomy classifies as a
`DomainError`, not `InvalidInput`. -/
theorem claim_C3_divide_by_zero_is_domain_error :
    calculatorSafeParse
        (Json.obj [("operation", Json.str "divide"), ("a", Json.num 1), ("b", Json.num 0)]) =
      .ok ⟨CalcOp.divide, 1, 0⟩ ∧
    callTool sampleEnv "calculator"
        (Json.obj [("operation", Json.str "divide"), ("a", Json.num 1), ("b", Json.num 0)]) =
      .error ⟨.InvalidParams, "Cannot divide by zero"⟩ ∧
    classifyError ⟨.InvalidParams, "Cannot divide by zero"⟩ = .DomainError := by
  refine ⟨rfl, ?_, by decide⟩
  rfl

/-- C6: any tool name other than the two registered ones makes the
dispatcher return the `MethodNotFound` error — classified `NotFound` — whose
message carries the unknown name verbatim (last conjunct: the name occurs
contiguously in the message); neither registered handler is reached, as the
returned value is exactly the not-found error. -/
theorem claim_C6_unknown_tool_not_found :
    ∀ (env : WeatherEnv) (name : String) (args : Json),
      name ≠ "calculator" → name ≠ "get_weather" →
      callTool env name args = .error ⟨.MethodNotFound, "Unknown tool: " ++ name⟩ ∧
      classifyError ⟨.MethodNotFound, "Unknown tool: " ++ name⟩ = .NotFound ∧
      name.data <:+: ("Unknown tool: " ++ name).data := by
  intro env name args h1 h2
  refine ⟨?_, by simp [classifyError], ?_⟩
  · unfold callTool
    rw [if_neg h1, if_neg h2]
  · rw [String.data_append]
    exact (List.suffix_append _ _).isInfix

/-- C6 witness: the unregistered name `does_not_exist` at a concrete
argument object. -/
theorem claim_C6_witness :
    callTool sampleEnv "does_not_exist" (Json.obj []) =
      .error ⟨.MethodNotFound, "Unknown tool: does_not_exist"⟩ ∧
    classifyError ⟨.MethodNotFound, "Unknown tool: " ++ "does_not_exist"⟩ = .NotFound := by
  have h := claim_C6_unknown_tool_not_found sampleEnv "does_not_exist" (Json.obj [])
    (by decide) (by decide)
  exact ⟨h.1, h.2.1⟩

/-- C8: the schema translator is a pure total function of its input tool:
equal inputs give equal declarations (its embedding as a plain function is
itself the no-side-effects statement). -/
theorem claim_C8_translator_deterministic :
    ∀ s t : McpTool, s = t → mcpToolToGeminiFn s = mcpToolToGeminiFn t := by
  intro s t h
  rw [h]

/-- C8 witness: two runs on the calculator declaration agree. -/
theorem claim_C8_witness :
    mcpToolToGeminiFn calculatorToolDefinition = mcpToolToGeminiFn calculatorToolDefinition :=
  claim_C8_translator_deterministic calculatorToolDefinition calculatorToolDefinition rfl

/-- C9: the multiply scenario: `{operation: "multiply", a: 25, b: 4}`
succeeds with the result text `25 multiply 4 = 100`; the numeric value is
the product `25 * 4 = 100` (second conjunct). -/
theorem claim_C9_multiply_scenario :
    callTool sampleEnv "calculator"
        (Json.obj [("operation", Json.str "multiply"), ("a", Json.num 25), ("b", Json.num 4)]) =
      .ok ⟨[⟨"text", "25 multiply 4 = 100"⟩]⟩ ∧
    (25 : ℚ) * 4 = 100 := by
  have h : (25 : ℚ) * 4 = 100 := by norm_num
  refine ⟨?_, h⟩
  have e1 : callTool sampleEnv "calculator"
      (Json.obj [("operation", Json.str "multiply"), ("a", Json.num 25), ("b", Json.num 4)]) =
      .ok ⟨[⟨"text", calcText 25 .multiply 4 ((25 : ℚ) * 4)⟩]⟩ := rfl
  rw [e1, h]
  have htext : calcText 25 CalcOp.multiply 4 100 = "25 multiply 4 = 100" := by decide
  rw [htext]

/-- C7: the schema translator preserves, for every tool declaration: the
tool name; every field name (in order); the required-field list (when
declared); and for every declared property, the translated entry keeps its
description and its enum constraint exactly (the enum is carried over
unchanged, so it is present iff declared); the six primitive kinds map to
their Gemini tags and every other kind falls back to `STRING`. -/
theorem claim_C7_translator_preserves_schema :
    (∀ t : McpTool, (mcpToolToGeminiFn t).name = t.name) ∧
    (∀ (t : McpTool) (props : List (String × PropertySchema)),
      t.inputSchema.properties = some props →
      (mcpToolToGeminiFn t).parameters.properties.map Prod.fst = props.map Prod.fst) ∧
    (∀ (t : McpTool) (req : List String),
      t.inputSchema.required = some req →
      (mcpToolToGeminiFn t).parameters.required = req) ∧
    (∀ (t : McpTool) (props : List (String × PropertySchema)) (k : String)
        (p : PropertySchema),
      t.inputSchema.properties = some props → (k, p) ∈ props →
      (k, ⟨toGeminiSchemaType p.type, p.description.getD "", p.enum⟩) ∈
        (mcpToolToGeminiFn t).parameters.properties) ∧
    (toGeminiSchemaType "string" = .STRING ∧ toGeminiSchemaType "number" = .NUMBER ∧
     toGeminiSchemaType "integer" = .INTEGER ∧ toGeminiSchemaType "boolean" = .BOOLEAN ∧
     toGeminiSchemaType "array" = .ARRAY ∧ toGeminiSchemaType "object" = .OBJECT) ∧
    (∀ s : String, s ≠ "string" → s ≠ "number" → s ≠ "integer" → s ≠ "boolean" →
      s ≠ "array" → s ≠ "object" → toGeminiSchemaType s = .STRING) := by
  refine ⟨fun t => rfl, ?_, ?_, ?_, ⟨rfl, rfl, rfl, rfl, rfl, rfl⟩, ?_⟩
  · intro t props h
    simp [mcpToolToGeminiFn, h]
  · intro t req h
    simp [mcpToolToGeminiFn, h]
  · intro t props k p h hmem
    simp only [mcpToolToGeminiFn, h]
    exact List.mem_map_of_mem _ hmem
  · intro s h1 h2 h3 h4 h5 h6
    unfold toGeminiSchemaType
    split
    · exact absurd rfl h1
    · exact absurd rfl h2
    · exact absurd rfl h3
    · exact absurd rfl h4
    · exact absurd rfl h5
    · exact absurd rfl h6
    · rfl

/-- C7 witness: the preservation statements instantiated at the concrete
calculator declaration, and the fallback at an unrecognized kind. -/
theorem claim_C7_witness :
    (mcpToolToGeminiFn calculatorToolDefinition).parameters.required =
      ["operation", "a", "b"] ∧
    (mcpToolToGeminiFn calculatorToolDefinition).parameters.properties.map Prod.fst =
      ["operation", "a", "b"] ∧
    ("operation",
      (⟨.STRING, "The arithmetic operation to perform",
        some ["add", "subtract", "multiply", "divide"]⟩ : GeminiProperty)) ∈
      (mcpToolToGeminiFn calculatorToolDefinition).parameters.properties ∧
    toGeminiSchemaType "frobnicate" = .STRING := by
  refine ⟨?_, ?_, ?_, ?_⟩
  · exact claim_C7_translator_preserves_schema.2.2.1 calculatorToolDefinition _ rfl
  · rw [claim_C7_translator_preserves_schema.2.1 calculatorToolDefinition _ rfl]
    rfl
  · exact claim_C7_translator_preserves_schema.2.2.2.1 calculatorToolDefinition _
      "operation"
      ⟨"string", some "The arithmetic operation to perform",
        some ["add", "subtract", "multiply", "divide"]⟩
      rfl (by simp [calculatorToolDefinition])
  · exact claim_C7_translator_preserves_schema.2.2.2.2.2 "frobnicate"
      (by decide) (by decide) (by decide) (by decide) (by decide) (by decide)

/-- The sequential tool-call loop stops at the first rejected invocation:
if every call before `c` succeeds and `c` fails, the whole batch
computation fails with exactly the error of `c`. -/
theorem processFunctionCalls_first_error (env : WeatherEnv) (c : FunctionCall)
    (rest : List FunctionCall) (e : McpError)
    (herr : callTool env c.name c.args = .error e) :
    ∀ pre : List FunctionCall,
      (∀ call ∈ pre, ∃ r, callTool env call.name call.args = .ok r) →
      processFunctionCalls env (pre ++ c :: rest) = .error e := by
  intro pre
  induction pre with
  | nil =>
    intro _
    simp [processFunctionCalls, herr]
  | cons a l ih =>
    intro hok
    obtain ⟨r, hr⟩ := hok a (List.mem_cons_self a l)
    have ihl := ih (fun call hc => hok call (List.mem_cons_of_mem a hc))
    simp [processFunctionCalls, hr, ihl]

/-- C1 (amended): for a model response with tool-invocation requests, the
controller executes them sequentially in the listed order; when every
invocation completes without a dispatcher error it sends exactly one
batched follow-up message whose results equal the requests in number and
are positionally matched to them by tool name; when some invocation fails,
the turn aborts and no follow-up message — in particular no partial
batch — is sent. -/
theorem claim_C1_batched_follow_up :
    ∀ (env : WeatherEnv) (r : ModelResponse) (rest : List ModelResponse),
      r.functionCalls ≠ [] →
      (∀ batch, processFunctionCalls env r.functionCalls = .ok batch →
        runTurn env (r :: rest) =
          ⟨batch :: (runTurn env rest).sentBatches, (runTurn env rest).outcome⟩ ∧
        batch.length = r.functionCalls.length ∧
        batch.map FunctionResponseMsg.name = r.functionCalls.map FunctionCall.name) ∧
      (∀ e, processFunctionCalls env r.functionCalls = .error e →
        runTurn env (r :: rest) = ⟨[], .aborted e.message⟩) := by
  intro env r rest hne
  have hie : r.functionCalls.isEmpty = false := by
    cases hcalls : r.functionCalls with
    | nil => exact absurd hcalls hne
    | cons a l => rfl
  constructor
  · intro batch hpc
    have hnames := processFunctionCalls_ok_names env r.functionCalls batch hpc
    refine ⟨?_, ?_, hnames⟩
    · simp [runTurn, hie, hpc]
    · have hlen := congrArg List.length hnames
      simpa using hlen
  · intro e hpc
    simp [runTurn, hie, hpc]

/-- C1 counterexample to the unamended claim: a model response carrying one
tool-invocation request whose dispatch fails produces no follow-up message
at all — the trace sends zero batches, not one batch with one result. -/
theorem claim_C1_counterexample :
    (([⟨"no_such_tool", Json.obj []⟩] : List FunctionCall)).length = 1 ∧
    runTurn sampleEnv [⟨[⟨"no_such_tool", Json.obj []⟩], ""⟩] =
      ⟨[], .aborted "Unknown tool: no_such_tool"⟩ :=
  ⟨rfl, rfl⟩

/-- C1 witness: a turn whose model response requests two tool calls sends
one follow-up message with exactly two results in request order. -/
theorem claim_C1_witness :
    runTurn sampleEnv
        [⟨[⟨"get_weather", Json.obj [("city", Json.str "tokyo")]⟩,
           ⟨"get_weather", Json.obj [("city", Json.str "paris")]⟩], ""⟩,
         ⟨[], "done"⟩] =
      ⟨[[⟨"get_weather", renderWeatherReport
            ⟨"Tokyo", "22°C", "55%", "Partly Cloudy", "2026-01-01T00:00:00.000Z"⟩⟩,
         ⟨"get_weather", renderWeatherReport
            ⟨"Paris", "14°C", "70%", "Rainy", "2026-01-01T00:00:00.000Z"⟩⟩]],
       .finalText "done"⟩ ∧
    ([⟨"get_weather", renderWeatherReport
          ⟨"Tokyo", "22°C", "55%", "Partly Cloudy", "2026-01-01T00:00:00.000Z"⟩⟩,
      ⟨"get_weather", renderWeatherReport
          ⟨"Paris", "14°C", "70%", "Rainy", "2026-01-01T00:00:00.000Z"⟩⟩] :
        List FunctionResponseMsg).length =
      ([⟨"get_weather", Json.obj [("city", Json.str "tokyo")]⟩,
        ⟨"get_weather", Json.obj [("city", Json.str "paris")]⟩] :
        List FunctionCall).length := by
  have h := (claim_C1_batched_follow_up sampleEnv
      ⟨[⟨"get_weather", Json.obj [("city", Json.str "tokyo")]⟩,
        ⟨"get_weather", Json.obj [("city", Json.str "paris")]⟩], ""⟩
      [⟨[], "done"⟩] (by simp)).1
      [⟨"get_weather", renderWeatherReport
          ⟨"Tokyo", "22°C", "55%", "Partly Cloudy", "2026-01-01T00:00:00.000Z"⟩⟩,
       ⟨"get_weather", renderWeatherReport
          ⟨"Paris", "14°C", "70%", "Rainy", "2026-01-01T00:00:00.000Z"⟩⟩]
      rfl
  refine ⟨?_, h.2.1⟩
  rw [h.1]
  rfl

/-- C2 (amended): a dispatcher-reported error is not collected as that
invocation's result: the first failing invocation makes the whole
tool-call loop fail with that error, and the turn then aborts through the
outer catch — the error message is surfaced to the user, no follow-up
batch is sent, and the model never sees the error as data. -/
theorem claim_C2_dispatcher_error_aborts :
    ∀ (env : WeatherEnv) (pre : List FunctionCall) (c : FunctionCall)
      (rest : List FunctionCall) (e : McpError),
      (∀ call ∈ pre, ∃ r, callTool env call.name call.args = .ok r) →
      callTool env c.name c.args = .error e →
      processFunctionCalls env (pre ++ c :: rest) = .error e ∧
      (∀ (r : ModelResponse) (more : List ModelResponse),
        r.functionCalls = pre ++ c :: rest →
        runTurn env (r :: more) = ⟨[], .aborted e.message⟩) := by
  intro env pre c rest e hok herr
  have hproc := processFunctionCalls_first_error env c rest e herr pre hok
  refine ⟨hproc, ?_⟩
  intro r more hcalls
  have hie : r.functionCalls.isEmpty = false := by
    rw [hcalls]
    cases pre <;> rfl
  simp [runTurn, hie, hcalls, hproc]

/-- C2 counterexample to the unamended claim: a turn whose single tool
call reports the divide-by-zero domain error sends no follow-up batch
(the error is not fed back to the model as data) and aborts with the error
message surfaced to the user, even though a further model response was
available. -/
theorem claim_C2_counterexample :
    runTurn sampleEnv
        [⟨[⟨"calculator",
            Json.obj [("operation", Json.str "divide"), ("a", Json.num 1), ("b", Json.num 0)]⟩],
          ""⟩,
         ⟨[], "follow-up"⟩] =
      ⟨[], .aborted "Cannot divide by zero"⟩ :=
  rfl

/-- C2 witness: the amended behavior at a concrete failing invocation. -/
theorem claim_C2_witness :
    processFunctionCalls sampleEnv
        [⟨"calculator",
          Json.obj [("operation", Json.str "divide"), ("a", Json.num 1), ("b", Json.num 0)]⟩] =
      .error ⟨.InvalidParams, "Cannot divide by zero"⟩ ∧
    runTurn sampleEnv
        [⟨[⟨"calculator",
            Json.obj [("operation", Json.str "divide"), ("a", Json.num 1), ("b", Json.num 0)]⟩],
          "x"⟩] =
      ⟨[], .aborted "Cannot divide by zero"⟩ := by
  have h := claim_C2_dispatcher_error_aborts sampleEnv []
      ⟨"calculator",
        Json.obj [("operation", Json.str "divide"), ("a", Json.num 1), ("b", Json.num 0)]⟩
      [] ⟨.InvalidParams, "Cannot divide by zero"⟩ (by simp) rfl
  exact ⟨h.1, h.2 ⟨[⟨"calculator",
      Json.obj [("operation", Json.str "divide"), ("a", Json.num 1), ("b", Json.num 0)]⟩], "x"⟩
    [] rfl⟩

/-- C10: for a get_weather invocation on a city with stored mock data,
omitting `unit` defaults to celsius and reports exactly the stored `tempC`
with the `°C` symbol; passing `unit: "fahrenheit"` reports
`round(tempC * 1.8 + 32)` (the factor `1.8` being exactly `9 / 5`) with
the `°F` symbol. -/
theorem claim_C10_weather_unit_default_and_fahrenheit :
    ∀ (city : String) (d fallback : WeatherData) (ts : String),
      1 ≤ city.length →
      mockWeatherLookup (jsToLower city) = some d →
      handleGetWeather (Json.obj [("city", Json.str city)]) fallback ts =
        .ok ⟨[⟨"text", renderWeatherReport
          ⟨jsCapitalize city, jsNumToString d.tempC ++ "°C",
           jsNumToString d.humidity ++ "%", d.condition, ts⟩⟩]⟩ ∧
      handleGetWeather (Json.obj [("city", Json.str city), ("unit", Json.str "fahrenheit")])
          fallback ts =
        .ok ⟨[⟨"text", renderWeatherReport
          ⟨jsCapitalize city,
           jsNumToString ((jsRound (d.tempC * (9 / 5) + 32) : ℤ) : ℚ) ++ "°F",
           jsNumToString d.humidity ++ "%", d.condition, ts⟩⟩]⟩ := by
  intro city d fallback ts hlen hlook
  constructor
  · have hparse : weatherSafeParse (Json.obj [("city", Json.str city)]) =
        .ok ⟨city, .celsius⟩ := by
      simp [weatherSafeParse, parseWeatherCity, parseWeatherUnit, lookupField,
        lookupAssoc, hlen]
    simp [handleGetWeather, hparse, hlook]
  · have hparse : weatherSafeParse
        (Json.obj [("city", Json.str city), ("unit", Json.str "fahrenheit")]) =
        .ok ⟨city, .fahrenheit⟩ := by
      simp [weatherSafeParse, parseWeatherCity, parseWeatherUnit, lookupField,
        lookupAssoc, hlen, decodeTempUnit]
    simp [handleGetWeather, hparse, hlook]

/-- C10 witness: London (stored tempC 12) reports `12°C` by default and
`54°F` (round of 53.6) in fahrenheit, for an arbitrary fallback row and
timestamp. -/
theorem claim_C10_witness :
    1 ≤ "london".length ∧
    mockWeatherLookup (jsToLower "london") = some ⟨12, 80, "Cloudy"⟩ ∧
    handleGetWeather (Json.obj [("city", Json.str "london")]) ⟨0, 0, "None"⟩ "T" =
      .ok ⟨[⟨"text", renderWeatherReport ⟨"London", "12°C", "80%", "Cloudy", "T"⟩⟩]⟩ ∧
    handleGetWeather (Json.obj [("city", Json.str "london"), ("unit", Json.str "fahrenheit")])
        ⟨0, 0, "None"⟩ "T" =
      .ok ⟨[⟨"text", renderWeatherReport ⟨"London", "54°F", "80%", "Cloudy", "T"⟩⟩]⟩ := by
  have h := claim_C10_weather_unit_default_and_fahrenheit "london" ⟨12, 80, "Cloudy"⟩
    ⟨0, 0, "None"⟩ "T" (by decide) rfl
  refine ⟨by decide, rfl, ?_, ?_⟩
  · rw [h.1]
    rfl
  · rw [h.2]
    have hr0 : jsRound ((12 : ℚ) * (9 / 5) + 32) = 54 := by
      norm_num [jsRound, Int.floor_eq_iff]
    simp only [hr0]
    rfl

/-- A value satisfying a declared string property with an enum is a string
in the enum. -/
theorem sat_str_enum (v : Json) (d : Option String) (es : List String)
    (h : satisfiesPropSchema ⟨"string", d, some es⟩ v = true) :
    ∃ s, v = .str s ∧ s ∈ es := by
  cases v with
  | str s =>
    refine ⟨s, rfl, ?_⟩
    simpa [satisfiesPropSchema, Json.hasPrimitiveType, Json.typeName] using h
  | num q => simp [satisfiesPropSchema, Json.hasPrimitiveType, Json.typeName] at h
  | bool b => simp [satisfiesPropSchema, Json.hasPrimitiveType, Json.typeName] at h
  | null => simp [satisfiesPropSchema, Json.hasPrimitiveType, Json.typeName] at h
  | arr xs => simp [satisfiesPropSchema, Json.hasPrimitiveType, Json.typeName] at h
  | obj fs => simp [satisfiesPropSchema, Json.hasPrimitiveType, Json.typeName] at h

/-- A value satisfying a declared plain string property is a string. -/
theorem sat_string (v : Json) (d : Option String)
    (h : satisfiesPropSchema ⟨"string", d, none⟩ v = true) :
    ∃ s, v = .str s := by
  cases v with
  | str s => exact ⟨s, rfl⟩
  | num q => simp [satisfiesPropSchema, Json.hasPrimitiveType, Json.typeName] at h
  | bool b => simp [satisfiesPropSchema, Json.hasPrimitiveType, Json.typeName] at h
  | null => simp [satisfiesPropSchema, Json.hasPrimitiveType, Json.typeName] at h
  | arr xs => simp [satisfiesPropSchema, Json.hasPrimitiveType, Json.typeName] at h
  | obj fs => simp [satisfiesPropSchema, Json.hasPrimitiveType, Json.typeName] at h

/-- A value satisfying a declared number property is a number. -/
theorem sat_number (v : Json) (d : Option String)
    (h : satisfiesPropSchema ⟨"number", d, none⟩ v = true) :
    ∃ q, v = .num q := by
  cases v with
  | num q => exact ⟨q, rfl⟩
  | str s => simp [satisfiesPropSchema, Json.hasPrimitiveType, Json.typeName] at h
  | bool b => simp [satisfiesPropSchema, Json.hasPrimitiveType, Json.typeName] at h
  | null => simp [satisfiesPropSchema, Json.hasPrimitiveType, Json.typeName] at h
  | arr xs => simp [satisfiesPropSchema, Json.hasPrimitiveType, Json.typeName] at h
  | obj fs => simp [satisfiesPropSchema, Json.hasPrimitiveType, Json.typeName] at h

/-- Unpacking satisfaction of the calculator's declared schema into
per-field facts. -/
theorem calc_sat_fields (fields : List (String × Json))
    (h : satisfiesObjectSchema calculatorToolDefinition.inputSchema fields = true) :
    (∃ vop, lookupField fields "operation" = some vop ∧
      satisfiesPropSchema ⟨"string", some "The arithmetic operation to perform",
        some ["add", "subtract", "multiply", "divide"]⟩ vop = true) ∧
    (∃ va, lookupField fields "a" = some va ∧
      satisfiesPropSchema ⟨"number", some "The first number", none⟩ va = true) ∧
    (∃ vb, lookupField fields "b" = some vb ∧
      satisfiesPropSchema ⟨"number", some "The second number", none⟩ vb = true) := by
  cases hop : lookupField fields "operation" <;>
    cases ha : lookupField fields "a" <;>
      cases hb : lookupField fields "b" <;>
        (simp [satisfiesObjectSchema, calculatorToolDefinition, hop, ha, hb] at h ⊢
         try exact h)

/-- Satisfaction of the calculator's declared schema implies the Zod parse
succeeds. -/
theorem calc_sat_parse (fields : List (String × Json))
    (h : satisfiesObjectSchema calculatorToolDefinition.inputSchema fields = true) :
    ∃ input, calculatorSafeParse (Json.obj fields) = .ok input := by
  obtain ⟨⟨vop, hop, hsop⟩, ⟨va, ha, hsa⟩, ⟨vb, hb, hsb⟩⟩ := calc_sat_fields fields h
  obtain ⟨s, rfl, hmem⟩ := sat_str_enum vop _ _ hsop
  obtain ⟨qa, rfl⟩ := sat_number va _ hsa
  obtain ⟨qb, rfl⟩ := sat_number vb _ hsb
  simp only [List.mem_cons, List.not_mem_nil, or_false] at hmem
  have hdec : ∃ op, decodeCalcOp s = some op := by
    rcases hmem with rfl | rfl | rfl | rfl
    · exact ⟨.add, rfl⟩
    · exact ⟨.subtract, rfl⟩
    · exact ⟨.multiply, rfl⟩
    · exact ⟨.divide, rfl⟩
  obtain ⟨op, hd⟩ := hdec
  exact ⟨⟨op, qa, qb⟩,
    by simp [calculatorSafeParse, parseCalcOperation, parseNumField, hop, ha, hb, hd]⟩

/-- Unpacking satisfaction of the weather tool's declared schema into
per-field facts (`unit` is optional). -/
theorem weather_sat_fields (fields : List (String × Json))
    (h : satisfiesObjectSchema weatherToolDefinition.inputSchema fields = true) :
    (∃ vc, lookupField fields "city" = some vc ∧
      satisfiesPropSchema ⟨"string", some "Name of the city to get weather for", none⟩ vc
        = true) ∧
    (lookupField fields "unit" = none ∨
      ∃ vu, lookupField fields "unit" = some vu ∧
        satisfiesPropSchema ⟨"string", some "Temperature unit (default: celsius)",
          some ["celsius", "fahrenheit"]⟩ vu = true) := by
  cases hc : lookupField fields "city" <;>
    cases hu : lookupField fields "unit" <;>
      simp [satisfiesObjectSchema, weatherToolDefinition, hc, hu] at h ⊢ <;>
        exact h

/-- Satisfaction of the weather tool's declared schema plus a non-empty
city string implies the Zod parse succeeds (the emptiness condition is the
one constraint the Zod schema adds beyond the declared schema). -/
theorem weather_sat_parse (fields : List (String × Json)) (c : String)
    (h : satisfiesObjectSchema weatherToolDefinition.inputSchema fields = true)
    (hc : lookupField fields "city" = some (Json.str c)) (hlen : 1 ≤ c.length) :
    ∃ input, weatherSafeParse (Json.obj fields) = .ok input := by
  obtain ⟨⟨vc, hc2, _⟩, hunit⟩ := weather_sat_fields fields h
  have hcity : parseWeatherCity fields = .ok c := by
    simp [parseWeatherCity, hc, hlen]
  rcases hunit with hu | ⟨vu, hu, hsu⟩
  · exact ⟨⟨c, .celsius⟩, by simp [weatherSafeParse, hcity, parseWeatherUnit, hu]⟩
  · obtain ⟨s, rfl, hmem⟩ := sat_str_enum vu _ _ hsu
    simp only [List.mem_cons, List.not_mem_nil, or_false] at hmem
    have hdec : ∃ u, decodeTempUnit s = some u := by
      rcases hmem with rfl | rfl
      · exact ⟨.celsius, rfl⟩
      · exact ⟨.fahrenheit, rfl⟩
    obtain ⟨u, hd⟩ := hdec
    exact ⟨⟨c, u⟩, by simp [weatherSafeParse, hcity, parseWeatherUnit, hu, hd]⟩

/-- The only error the calculator handler can report after a successful
parse is the divide-by-zero domain error. -/
theorem handleCalculator_error_after_parse (args : Json) (op : CalcOp) (qa qb : ℚ)
    (e : McpError) (hp : calculatorSafeParse args = .ok ⟨op, qa, qb⟩)
    (he : handleCalculator args = .error e) :
    e = ⟨.InvalidParams, "Cannot divide by zero"⟩ := by
  unfold handleCalculator at he
  rw [hp] at he
  cases op
  case add => simp at he
  case subtract => simp at he
  case multiply => simp at he
  case divide =>
    have he2 : (if qb = 0 then
          (.error ⟨.InvalidParams, "Cannot divide by zero"⟩ : Except McpError ToolResponse)
        else .ok ⟨[⟨"text", calcText qa .divide qb (qa / qb)⟩]⟩) = .error e := he
    by_cases hqb : qb = 0
    · rw [if_pos hqb] at he2
      cases he2
      rfl
    · rw [if_neg hqb] at he2
      cases he2

/-- The weather handler reports no error after a successful parse. -/
theorem handleGetWeather_no_error_of_parse_ok (args : Json) (input : WeatherInput)
    (fb : WeatherData) (ts : String) (e : McpError)
    (hp : weatherSafeParse args = .ok input)
    (he : handleGetWeather args fb ts = .error e) : False := by
  unfold handleGetWeather at he
  rw [hp] at he
  obtain ⟨city, u⟩ := input
  cases u <;> simp at he

/-- C4 (amended): arguments satisfying a registered tool's declared input
schema never make `invokeTool` return an `InvalidInput` error — except
that for `get_weather` the city string must additionally be non-empty,
because the handler's Zod schema demands `min(1)` while the declared
schema does not.  (The unamended universal claim is refuted by
`claim_C4_counterexample`.) -/
theorem claim_C4_wellformed_args_never_invalid_input :
    (∀ (env : WeatherEnv) (fields : List (String × Json)),
      satisfiesObjectSchema calculatorToolDefinition.inputSchema fields = true →
      ∀ e, callTool env "calculator" (Json.obj fields) = .error e →
        classifyError e ≠ .InvalidInput) ∧
    (∀ (env : WeatherEnv) (fields : List (String × Json)) (c : String),
      satisfiesObjectSchema weatherToolDefinition.inputSchema fields = true →
      lookupField fields "city" = some (Json.str c) → 1 ≤ c.length →
      ∀ e, callTool env "get_weather" (Json.obj fields) = .error e →
        classifyError e ≠ .InvalidInput) := by
  constructor
  · intro env fields hsat e herr
    obtain ⟨input, hparse⟩ := calc_sat_parse fields hsat
    obtain ⟨op, qa, qb⟩ := input
    have herr2 : handleCalculator (Json.obj fields) = .error e := herr
    have he := handleCalculator_error_after_parse (Json.obj fields) op qa qb e hparse herr2
    subst he
    decide
  · intro env fields c hsat hc hlen e herr
    obtain ⟨input, hparse⟩ := weather_sat_parse fields c hsat hc hlen
    have herr2 : handleGetWeather (Json.obj fields) env.fallback env.timestamp = .error e :=
      herr
    exact (handleGetWeather_no_error_of_parse_ok (Json.obj fields) input env.fallback
      env.timestamp e hparse herr2).elim

/-- C4 counterexample to the unamended claim: `{city: ""}` satisfies the
declared `get_weather` schema (string city present, no length constraint
declared), yet `invokeTool` returns an `InvalidInput` error, because the
handler's Zod schema requires a non-empty city. -/
theorem claim_C4_counterexample :
    satisfiesObjectSchema weatherToolDefinition.inputSchema [("city", Json.str "")] = true ∧
    callTool sampleEnv "get_weather" (Json.obj [("city", Json.str "")]) =
      .error ⟨.InvalidParams,
        "Invalid input: path [city]: String must contain at least 1 character(s)"⟩ ∧
    classifyError ⟨.InvalidParams,
        "Invalid input: path [city]: String must contain at least 1 character(s)"⟩ =
      .InvalidInput := by
  refine ⟨by decide, rfl, by decide⟩

/-- C4 witness: well-formed divide-by-zero arguments satisfy the declared
schema and produce an error that is not `InvalidInput`. -/
theorem claim_C4_witness :
    satisfiesObjectSchema calculatorToolDefinition.inputSchema
      [("operation", Json.str "divide"), ("a", Json.num 1), ("b", Json.num 0)] = true ∧
    classifyError ⟨.InvalidParams, "Cannot divide by zero"⟩ ≠ .InvalidInput :=
  ⟨by decide,
    claim_C4_wellformed_args_never_invalid_input.1 sampleEnv
      [("operation", Json.str "divide"), ("a", Json.num 1), ("b", Json.num 0)]
      (by decide) ⟨.InvalidParams, "Cannot divide by zero"⟩ rfl⟩

/-- Every issue the `operation` check can raise names the field
`operation`. -/
theorem parseCalcOperation_error_path (fields : List (String × Json)) (i : ZodIssue)
    (h : parseCalcOperation fields = .error i) : i.path = ["operation"] := by
  unfold parseCalcOperation at h
  split at h
  · injection h with h2
    subst h2
    rfl
  · split at h
    · simp at h
    · injection h with h2
      subst h2
      rfl
  · injection h with h2
    subst h2
    rfl

/-- Every issue a `z.number()` field check can raise names that field. -/
theorem parseNumField_error_path (name : String) (fields : List (String × Json))
    (i : ZodIssue) (h : parseNumField name fields = .error i) : i.path = [name] := by
  unfold parseNumField at h
  split at h
  · injection h with h2
    subst h2
    rfl
  · simp at h
  · injection h with h2
    subst h2
    rfl

/-- Every issue the `city` check can raise names the field `city`. -/
theorem parseWeatherCity_error_path (fields : List (String × Json)) (i : ZodIssue)
    (h : parseWeatherCity fields = .error i) : i.path = ["city"] := by
  unfold parseWeatherCity at h
  split at h
  · injection h with h2
    subst h2
    rfl
  · split at h
    · simp at h
    · injection h with h2
      subst h2
      rfl
  · injection h with h2
    subst h2
    rfl

/-- Every issue the `unit` check can raise names the field `unit`. -/
theorem parseWeatherUnit_error_path (fields : List (String × Json)) (i : ZodIssue)
    (h : parseWeatherUnit fields = .error i) : i.path = ["unit"] := by
  unfold parseWeatherUnit at h
  split at h
  · simp at h
  · split at h
    · simp at h
    · injection h with h2
      subst h2
      rfl
  · injection h with h2
    subst h2
    rfl

/-- A declared-schema violation of `operation` makes its Zod check fail. -/
theorem parseCalcOperation_error_of_violation (fields : List (String × Json))
    (h : lookupField fields "operation" = none ∨
      ∃ v, lookupField fields "operation" = some v ∧
        satisfiesPropSchema ⟨"string", some "The arithmetic operation to perform",
          some ["add", "subtract", "multiply", "divide"]⟩ v = false) :
    ∃ i, parseCalcOperation fields = .error i := by
  rcases h with h | ⟨v, hv, hns⟩
  · exact ⟨⟨["operation"], "Required"⟩, by simp [parseCalcOperation, h]⟩
  · cases v with
    | str s =>
      have hc : ¬ (s = "add" ∨ s = "subtract" ∨ s = "multiply" ∨ s = "divide") := by
        intro hmem
        have hsat : satisfiesPropSchema ⟨"string", some "The arithmetic operation to perform",
            some ["add", "subtract", "multiply", "divide"]⟩ (Json.str s) = true := by
          rcases hmem with rfl | rfl | rfl | rfl <;> rfl
        rw [hsat] at hns
        cases hns
      push_neg at hc
      obtain ⟨h1, h2, h3, h4⟩ := hc
      refine ⟨⟨["operation"],
        "Invalid enum value. Expected add | subtract | multiply | divide, received " ++ s⟩, ?_⟩
      simp [parseCalcOperation, hv, decodeCalcOp, h1, h2, h3, h4]
    | num q => exact ⟨_, by (simp [parseCalcOperation, hv]; rfl)⟩
    | bool b => exact ⟨_, by (simp [parseCalcOperation, hv]; rfl)⟩
    | null => exact ⟨_, by (simp [parseCalcOperation, hv]; rfl)⟩
    | arr xs => exact ⟨_, by (simp [parseCalcOperation, hv]; rfl)⟩
    | obj fs => exact ⟨_, by (simp [parseCalcOperation, hv]; rfl)⟩

/-- A declared-schema violation of a number field makes its Zod check
fail. -/
theorem parseNumField_error_of_violation (name : String) (d : Option String)
    (fields : List (String × Json))
    (h : lookupField fields name = none ∨
      ∃ v, lookupField fields name = some v ∧
        satisfiesPropSchema ⟨"number", d, none⟩ v = false) :
    ∃ i, parseNumField name fields = .error i := by
  rcases h with h | ⟨v, hv, hns⟩
  · exact ⟨⟨[name], "Required"⟩, by simp [parseNumField, h]⟩
  · cases v with
    | num q =>
      rw [show satisfiesPropSchema ⟨"number", d, none⟩ (Json.num q) = true from rfl] at hns
      cases hns
    | str s => exact ⟨_, by (simp [parseNumField, hv]; rfl)⟩
    | bool b => exact ⟨_, by (simp [parseNumField, hv]; rfl)⟩
    | null => exact ⟨_, by (simp [parseNumField, hv]; rfl)⟩
    | arr xs => exact ⟨_, by (simp [parseNumField, hv]; rfl)⟩
    | obj fs => exact ⟨_, by (simp [parseNumField, hv]; rfl)⟩

/-- A declared-schema violation of `city` makes its Zod check fail. -/
theorem parseWeatherCity_error_of_violation (fields : List (String × Json))
    (h : lookupField fields "city" = none ∨
      ∃ v, lookupField fields "city" = some v ∧
        satisfiesPropSchema ⟨"string", some "Name of the city to get weather for", none⟩ v
          = false) :
    ∃ i, parseWeatherCity fields = .error i := by
  rcases h with h | ⟨v, hv, hns⟩
  · exact ⟨⟨["city"], "Required"⟩, by simp [parseWeatherCity, h]⟩
  · cases v with
    | str s =>
      rw [show satisfiesPropSchema ⟨"string", some "Name of the city to get weather for",
        none⟩ (Json.str s) = true from rfl] at hns
      cases hns
    | num q => exact ⟨_, by (simp [parseWeatherCity, hv]; rfl)⟩
    | bool b => exact ⟨_, by (simp [parseWeatherCity, hv]; rfl)⟩
    | null => exact ⟨_, by (simp [parseWeatherCity, hv]; rfl)⟩
    | arr xs => exact ⟨_, by (simp [parseWeatherCity, hv]; rfl)⟩
    | obj fs => exact ⟨_, by (simp [parseWeatherCity, hv]; rfl)⟩

/-- A declared-schema violation of `unit` makes its Zod check fail. -/
theorem parseWeatherUnit_error_of_violation (fields : List (String × Json))
    (h : ∃ v, lookupField fields "unit" = some v ∧
      satisfiesPropSchema ⟨"string", some "Temperature unit (default: celsius)",
        some ["celsius", "fahrenheit"]⟩ v = false) :
    ∃ i, parseWeatherUnit fields = .error i := by
  obtain ⟨v, hv, hns⟩ := h
  cases v with
  | str s =>
    have hc : ¬ (s = "celsius" ∨ s = "fahrenheit") := by
      intro hmem
      have hsat : satisfiesPropSchema ⟨"string", some "Temperature unit (default: celsius)",
          some ["celsius", "fahrenheit"]⟩ (Json.str s) = true := by
        rcases hmem with rfl | rfl <;> rfl
      rw [hsat] at hns
      cases hns
    push_neg at hc
    obtain ⟨h1, h2⟩ := hc
    refine ⟨⟨["unit"],
      "Invalid enum value. Expected celsius | fahrenheit, received " ++ s⟩, ?_⟩
    simp [parseWeatherUnit, hv, decodeTempUnit, h1, h2]
  | num q => exact ⟨_, by (simp [parseWeatherUnit, hv]; rfl)⟩
  | bool b => exact ⟨_, by (simp [parseWeatherUnit, hv]; rfl)⟩
  | null => exact ⟨_, by (simp [parseWeatherUnit, hv]; rfl)⟩
  | arr xs => exact ⟨_, by (simp [parseWeatherUnit, hv]; rfl)⟩
  | obj fs => exact ⟨_, by (simp [parseWeatherUnit, hv]; rfl)⟩

/-- An `operation` issue is collected into the calculator parse issues. -/
theorem calcParse_error_op (fields : List (String × Json)) (i : ZodIssue)
    (h : parseCalcOperation fields = .error i) :
    ∃ issues, calculatorSafeParse (Json.obj fields) = .error issues ∧ i ∈ issues := by
  cases ha : parseNumField "a" fields with
  | error ia =>
    cases hb : parseNumField "b" fields with
    | error ib =>
      exact ⟨[i, ia, ib], by simp [calculatorSafeParse, h, ha, hb, exceptIssues], by simp⟩
    | ok qb =>
      exact ⟨[i, ia], by simp [calculatorSafeParse, h, ha, hb, exceptIssues], by simp⟩
  | ok qa =>
    cases hb : parseNumField "b" fields with
    | error ib =>
      exact ⟨[i, ib], by simp [calculatorSafeParse, h, ha, hb, exceptIssues], by simp⟩
    | ok qb =>
      exact ⟨[i], by simp [calculatorSafeParse, h, ha, hb, exceptIssues], by simp⟩

/-- An `a` issue is collected into the calculator parse issues. -/
theorem calcParse_error_a (fields : List (String × Json)) (i : ZodIssue)
    (h : parseNumField "a" fields = .error i) :
    ∃ issues, calculatorSafeParse (Json.obj fields) = .error issues ∧ i ∈ issues := by
  cases hop : parseCalcOperation fields with
  | error io =>
    cases hb : parseNumField "b" fields with
    | error ib =>
      exact ⟨[io, i, ib], by simp [calculatorSafeParse, hop, h, hb, exceptIssues], by simp⟩
    | ok qb =>
      exact ⟨[io, i], by simp [calculatorSafeParse, hop, h, hb, exceptIssues], by simp⟩
  | ok op =>
    cases hb : parseNumField "b" fields with
    | error ib =>
      exact ⟨[i, ib], by simp [calculatorSafeParse, hop, h, hb, exceptIssues], by simp⟩
    | ok qb =>
      exact ⟨[i], by simp [calculatorSafeParse, hop, h, hb, exceptIssues], by simp⟩

/-- A `b` issue is collected into the calculator parse issues. -/
theorem calcParse_error_b (fields : List (String × Json)) (i : ZodIssue)
    (h : parseNumField "b" fields = .error i) :
    ∃ issues, calculatorSafeParse (Json.obj fields) = .error issues ∧ i ∈ issues := by
  cases hop : parseCalcOperation fields with
  | error io =>
    cases ha : parseNumField "a" fields with
    | error ia =>
      exact ⟨[io, ia, i], by simp [calculatorSafeParse, hop, ha, h, exceptIssues], by simp⟩
    | ok qa =>
      exact ⟨[io, i], by simp [calculatorSafeParse, hop, ha, h, exceptIssues], by simp⟩
  | ok op =>
    cases ha : parseNumField "a" fields with
    | error ia =>
      exact ⟨[ia, i], by simp [calculatorSafeParse, hop, ha, h, exceptIssues], by simp⟩
    | ok qa =>
      exact ⟨[i], by simp [calculatorSafeParse, hop, ha, h, exceptIssues], by simp⟩

/-- A `city` issue is collected into the weather parse issues. -/
theorem weatherParse_error_city (fields : List (String × Json)) (i : ZodIssue)
    (h : parseWeatherCity fields = .error i) :
    ∃ issues, weatherSafeParse (Json.obj fields) = .error issues ∧ i ∈ issues := by
  cases hu : parseWeatherUnit fields with
  | error iu =>
    exact ⟨[i, iu], by simp [weatherSafeParse, h, hu, exceptIssues], by simp⟩
  | ok u =>
    exact ⟨[i], by simp [weatherSafeParse, h, hu, exceptIssues], by simp⟩

/-- A `unit` issue is collected into the weather parse issues. -/
theorem weatherParse_error_unit (fields : List (String × Json)) (i : ZodIssue)
    (h : parseWeatherUnit fields = .error i) :
    ∃ issues, weatherSafeParse (Json.obj fields) = .error issues ∧ i ∈ issues := by
  cases hc : parseWeatherCity fields with
  | error ic =>
    exact ⟨[ic, i], by simp [weatherSafeParse, hc, h, exceptIssues], by simp⟩
  | ok c =>
    exact ⟨[i], by simp [weatherSafeParse, hc, h, exceptIssues], by simp⟩

/-- C5: for each registered tool, an argument object violating its declared
schema at field `f` (missing required field, wrong type, or enum
violation) makes `invokeTool` return a validation error — classified
`InvalidInput` — whose issue list contains an issue whose path is exactly
`f` and whose rendered message cites `f` verbatim; in particular the
scenario `calculator {operation: "add", a: "x", b: 2}` yields an
`InvalidInput` error citing the field `a`. -/
theorem claim_C5_invalid_args_cite_field :
    (∀ (env : WeatherEnv) (fields : List (String × Json)) (f : String),
      violatesField calculatorToolDefinition.inputSchema fields f →
      ∃ issues, calculatorSafeParse (Json.obj fields) = .error issues ∧
        (∃ i ∈ issues, i.path = [f]) ∧
        callTool env "calculator" (Json.obj fields) =
          .error ⟨.InvalidParams, "Invalid input: " ++ renderIssues issues⟩ ∧
        classifyError ⟨.InvalidParams, "Invalid input: " ++ renderIssues issues⟩ =
          .InvalidInput ∧
        f.data <:+: (renderIssues issues).data) ∧
    (∀ (env : WeatherEnv) (fields : List (String × Json)) (f : String),
      violatesField weatherToolDefinition.inputSchema fields f →
      ∃ issues, weatherSafeParse (Json.obj fields) = .error issues ∧
        (∃ i ∈ issues, i.path = [f]) ∧
        callTool env "get_weather" (Json.obj fields) =
          .error ⟨.InvalidParams, "Invalid input: " ++ renderIssues issues⟩ ∧
        classifyError ⟨.InvalidParams, "Invalid input: " ++ renderIssues issues⟩ =
          .InvalidInput ∧
        f.data <:+: (renderIssues issues).data) ∧
    (callTool sampleEnv "calculator"
        (Json.obj [("operation", Json.str "add"), ("a", Json.str "x"), ("b", Json.num 2)]) =
      .error ⟨.InvalidParams, "Invalid input: path [a]: Expected number, received string"⟩ ∧
     classifyError
        ⟨.InvalidParams, "Invalid input: path [a]: Expected number, received string"⟩ =
      .InvalidInput ∧
     "a".data <:+: "Invalid input: path [a]: Expected number, received string".data) := by
  refine ⟨?_, ?_, rfl, by decide, by decide⟩
  · intro env fields f hviol
    have hexists : ∃ i, (parseCalcOperation fields = .error i ∨
        parseNumField "a" fields = .error i ∨ parseNumField "b" fields = .error i) ∧
        i.path = [f] := by
      rcases hviol with ⟨hreq, habs⟩ | ⟨p, hp, v, hv, hns⟩
      · simp [calculatorToolDefinition] at hreq
        rcases hreq with rfl | rfl | rfl
        · obtain ⟨i, hi⟩ := parseCalcOperation_error_of_violation fields (Or.inl habs)
          exact ⟨i, Or.inl hi, parseCalcOperation_error_path fields i hi⟩
        · obtain ⟨i, hi⟩ :=
            parseNumField_error_of_violation "a" (some "The first number") fields (Or.inl habs)
          exact ⟨i, Or.inr (Or.inl hi), parseNumField_error_path "a" fields i hi⟩
        · obtain ⟨i, hi⟩ :=
            parseNumField_error_of_violation "b" (some "The second number") fields (Or.inl habs)
          exact ⟨i, Or.inr (Or.inr hi), parseNumField_error_path "b" fields i hi⟩
      · simp [calculatorToolDefinition] at hp
        rcases hp with ⟨rfl, rfl⟩ | ⟨rfl, rfl⟩ | ⟨rfl, rfl⟩
        · obtain ⟨i, hi⟩ :=
            parseCalcOperation_error_of_violation fields (Or.inr ⟨v, hv, hns⟩)
          exact ⟨i, Or.inl hi, parseCalcOperation_error_path fields i hi⟩
        · obtain ⟨i, hi⟩ := parseNumField_error_of_violation "a" (some "The first number")
            fields (Or.inr ⟨v, hv, hns⟩)
          exact ⟨i, Or.inr (Or.inl hi), parseNumField_error_path "a" fields i hi⟩
        · obtain ⟨i, hi⟩ := parseNumField_error_of_violation "b" (some "The second number")
            fields (Or.inr ⟨v, hv, hns⟩)
          exact ⟨i, Or.inr (Or.inr hi), parseNumField_error_path "b" fields i hi⟩
    obtain ⟨i, hcase, hpath⟩ := hexists
    have hagg : ∃ issues, calculatorSafeParse (Json.obj fields) = .error issues ∧
        i ∈ issues := by
      rcases hcase with hi | hi | hi
      · exact calcParse_error_op fields i hi
      · exact calcParse_error_a fields i hi
      · exact calcParse_error_b fields i hi
    obtain ⟨issues, hiss, hmem⟩ := hagg
    refine ⟨issues, hiss, ⟨i, hmem, hpath⟩, ?_, classify_invalid_input _,
      field_infix_renderIssues issues i f hmem hpath⟩
    have hct : callTool env "calculator" (Json.obj fields) =
        handleCalculator (Json.obj fields) := rfl
    rw [hct]
    unfold handleCalculator
    rw [hiss]
  · intro env fields f hviol
    have hexists : ∃ i, (parseWeatherCity fields = .error i ∨
        parseWeatherUnit fields = .error i) ∧ i.path = [f] := by
      rcases hviol with ⟨hreq, habs⟩ | ⟨p, hp, v, hv, hns⟩
      · simp [weatherToolDefinition] at hreq
        subst hreq
        obtain ⟨i, hi⟩ := parseWeatherCity_error_of_violation fields (Or.inl habs)
        exact ⟨i, Or.inl hi, parseWeatherCity_error_path fields i hi⟩
      · simp [weatherToolDefinition] at hp
        rcases hp with ⟨rfl, rfl⟩ | ⟨rfl, rfl⟩
        · obtain ⟨i, hi⟩ :=
            parseWeatherCity_error_of_violation fields (Or.inr ⟨v, hv, hns⟩)
          exact ⟨i, Or.inl hi, parseWeatherCity_error_path fields i hi⟩
        · obtain ⟨i, hi⟩ := parseWeatherUnit_error_of_violation fields ⟨v, hv, hns⟩
          exact ⟨i, Or.inr hi, parseWeatherUnit_error_path fields i hi⟩
    obtain ⟨i, hcase, hpath⟩ := hexists
    have hagg : ∃ issues, weatherSafeParse (Json.obj fields) = .error issues ∧
        i ∈ issues := by
      rcases hcase with hi | hi
      · exact weatherParse_error_city fields i hi
      · exact weatherParse_error_unit fields i hi
    obtain ⟨issues, hiss, hmem⟩ := hagg
    refine ⟨issues, hiss, ⟨i, hmem, hpath⟩, ?_, classify_invalid_input _,
      field_infix_renderIssues issues i f hmem hpath⟩
    have hct : callTool env "get_weather" (Json.obj fields) =
        handleGetWeather (Json.obj fields) env.fallback env.timestamp := rfl
    rw [hct]
    unfold handleGetWeather
    rw [hiss]

/-- C5 witness: the universal parts applied at concrete violating argument
objects — a wrongly-typed `a` for the calculator and a missing `city` for
the weather tool. -/
theorem claim_C5_witness :
    (violatesField calculatorToolDefinition.inputSchema
      [("operation", Json.str "add"), ("a", Json.str "x"), ("b", Json.num 2)] "a" ∧
     ∃ issues, calculatorSafeParse
        (Json.obj [("operation", Json.str "add"), ("a", Json.str "x"), ("b", Json.num 2)]) =
        .error issues ∧
      (∃ i ∈ issues, i.path = ["a"]) ∧
      callTool sampleEnv "calculator"
          (Json.obj [("operation", Json.str "add"), ("a", Json.str "x"), ("b", Json.num 2)]) =
        .error ⟨.InvalidParams, "Invalid input: " ++ renderIssues issues⟩ ∧
      classifyError ⟨.InvalidParams, "Invalid input: " ++ renderIssues issues⟩ =
        .InvalidInput ∧
      ("a" : String).data <:+: (renderIssues issues).data) ∧
    (violatesField weatherToolDefinition.inputSchema [("unit", Json.str "kelvin")] "city" ∧
     ∃ issues, weatherSafeParse (Json.obj [("unit", Json.str "kelvin")]) = .error issues ∧
      (∃ i ∈ issues, i.path = ["city"]) ∧
      callTool sampleEnv "get_weather" (Json.obj [("unit", Json.str "kelvin")]) =
        .error ⟨.InvalidParams, "Invalid input: " ++ renderIssues issues⟩ ∧
      classifyError ⟨.InvalidParams, "Invalid input: " ++ renderIssues issues⟩ =
        .InvalidInput ∧
      ("city" : String).data <:+: (renderIssues issues).data) := by
  have hv1 : violatesField calculatorToolDefinition.inputSchema
      [("operation", Json.str "add"), ("a", Json.str "x"), ("b", Json.num 2)] "a" :=
    Or.inr ⟨⟨"number", some "The first number", none⟩, by simp [calculatorToolDefinition],
      Json.str "x", rfl, rfl⟩
  have hv2 : violatesField weatherToolDefinition.inputSchema
      [("unit", Json.str "kelvin")] "city" :=
    Or.inl ⟨by simp [weatherToolDefinition], rfl⟩
  exact ⟨⟨hv1, claim_C5_invalid_args_cite_field.1 sampleEnv _ "a" hv1⟩,
    ⟨hv2, claim_C5_invalid_args_cite_field.2.1 sampleEnv _ "city" hv2⟩⟩

end MCP
